import Mathlib

/-!
Verification of the Sidekick LangGraph workflow core
(`src/core/state.py`, `src/core/sidekick.py`, `src/ui/gradio_app.py`).

The Python code is shallowly embedded: messages are a tagged variant,
the LangGraph conversation state is a structure, each graph node is a
function from state (plus the data returned by its external LLM / tool
services, which are parameters of the embedding) to a partial state
update, and LangGraph's reducer-merge (`add_messages` on `messages`,
overwrite on the scalar fields) is made explicit.
-/

/-- One tool call carried by an assistant message
(LangChain `AIMessage.tool_calls` entry: id, name, args). -/
structure ToolCall where
  id : String
  name : String
  args : List (String × String)
deriving DecidableEq

/-- Conversation messages, as used by the workflow
(LangChain `SystemMessage` / `HumanMessage` / `AIMessage` / `ToolMessage`).
Only an assistant message carries a `tool_calls` attribute. -/
inductive Message where
  | system (content : String)
  | human (content : String)
  | assistant (content : String) (tool_calls : List ToolCall)
  | toolResult (call_id : String) (content : String)
deriving DecidableEq

/-- The `.content` attribute of a message. -/
def Message.text : Message → String
  | Message.system c => c
  | Message.human c => c
  | Message.assistant c _ => c
  | Message.toolResult _ c => c

/-- `src/core/state.py`, class `State`: the LangGraph conversation state.
`messages` carries the `add_messages` reducer; the other fields are
overwrite-with-latest scalars. -/
structure State where
  messages : List Message
  success_criteria : String
  feedback_on_work : Option String
  success_criteria_met : Bool
  user_input_needed : Bool
deriving DecidableEq

/-- `src/core/state.py`, class `EvaluatorOutput`: the structured record
returned by the evaluator LLM service. -/
structure EvaluatorOutput where
  feedback : String
  success_criteria_met : Bool
  user_input_needed : Bool
deriving DecidableEq

/-- The fixed default success criteria used by `create_initial_state`. -/
def default_success_criteria : String := "The answer should be clear and accurate"

/-- `src/core/state.py`, `create_initial_state(message, success_criteria)`.
The Python dict stores the raw user string under `"messages"`; LangGraph's
`add_messages` reducer coerces that string to a single `HumanMessage`, which
is how it is embedded here.  `success_criteria or default` resolves to the
default exactly when the caller's string is empty (the only falsy string). -/
def create_initial_state (message : String) (success_criteria : String) : State :=
  { messages := [Message.human message]
  , success_criteria :=
      if success_criteria = "" then default_success_criteria else success_criteria
  , feedback_on_work := none
  , success_criteria_met := false
  , user_input_needed := false }

/-- Truthiness of `hasattr(m, "tool_calls") and m.tool_calls`: only an
assistant message has the attribute, and a Python list is truthy exactly
when it is non-empty. -/
def has_tool_calls : Message → Bool
  | Message.assistant _ tcs => !tcs.isEmpty
  | _ => false

/-- `src/core/sidekick.py`, `Sidekick.worker_router`: inspects
`state["messages"][-1]` and returns `"tools"` or `"evaluator"`.
Python raises `IndexError` on an empty list, embedded as `none`. -/
def worker_router (state : State) : Option String :=
  match state.messages.getLast? with
  | none => none
  | some m => some (if has_tool_calls m then "tools" else "evaluator")

/-- `src/core/sidekick.py`, `Sidekick.route_based_on_evaluation`:
returns the terminal marker `"END"` (mapped to `END` by the conditional
edge table in `build_graph`) or `"worker"`. -/
def route_based_on_evaluation (state : State) : String :=
  if state.success_criteria_met || state.user_input_needed then "END" else "worker"

/-- Does `isinstance(m, SystemMessage)` hold? -/
def is_system : Message → Bool
  | Message.system _ => true
  | _ => false

/-- Number of System messages in a message list. -/
def countSystem (ms : List Message) : Nat := (ms.filter is_system).length

/-- The `for message in messages: if isinstance(message, SystemMessage):
message.content = system_message; break` loop of `Sidekick.worker`:
the first System message has its content replaced, everything else is
untouched. -/
def replace_first_system (sys : String) : List Message → List Message
  | [] => []
  | m :: rest =>
      if is_system m then Message.system sys :: rest
      else m :: replace_first_system sys rest

/-- The local message list `Sidekick.worker` passes to the LLM: the state's
messages with the first System message's content replaced when one exists,
and with a fresh System message prepended otherwise
(`messages = [SystemMessage(content=system_message)] + messages`). -/
def worker_prompt (sys : String) (ms : List Message) : List Message :=
  if ms.any is_system then replace_first_system sys ms else Message.system sys :: ms

/-- Effect of `Sidekick.worker` on the state's own `messages` value before
the reducer merge.  The replacement branch mutates the message object held
in the state (`message.content = system_message`), so it is visible in the
merged state; the prepend branch rebinds only the local variable
(`messages = [SystemMessage(...)] + messages`) and is not part of the
returned update `{"messages": [response]}`, so the state is unchanged. -/
def worker_channel_messages (sys : String) (ms : List Message) : List Message :=
  if ms.any is_system then replace_first_system sys ms else ms

/-- LangGraph's `add_messages` reducer on the `messages` field.  A node's
update messages are fresh objects with fresh ids, so no id-based
replacement occurs and the reducer concatenates. -/
def add_messages (old new : List Message) : List Message := old ++ new

/-- A partial state update as returned by a graph node; `none` on a scalar
field means the node's dict did not mention that key. -/
structure Update where
  messages : List Message := []
  success_criteria : Option String := none
  feedback_on_work : Option (Option String) := none
  success_criteria_met : Option Bool := none
  user_input_needed : Option Bool := none

/-- LangGraph's reducer merge of a node update into the state:
`messages` appends via `add_messages`, scalars overwrite-with-latest. -/
def apply_update (st : State) (u : Update) : State :=
  { messages := add_messages st.messages u.messages
  , success_criteria := u.success_criteria.getD st.success_criteria
  , feedback_on_work := u.feedback_on_work.getD st.feedback_on_work
  , success_criteria_met := u.success_criteria_met.getD st.success_criteria_met
  , user_input_needed := u.user_input_needed.getD st.user_input_needed }

/-- The update returned by `Sidekick.worker`: `{"messages": [response]}`. -/
def worker_node (response : Message) : Update := { messages := [response] }

/-- The update returned by `Sidekick.evaluator` once its structured-output
service yields `result`: one synthetic assistant message (the returned
`{"role": "assistant", "content": ...}` dict, which `add_messages` coerces
to an `AIMessage` with no tool calls) plus the three overwritten scalars. -/
def evaluator_node (result : EvaluatorOutput) : Update :=
  { messages :=
      [Message.assistant ("Evaluator Feedback on this answer: " ++ result.feedback) []]
  , feedback_on_work := some (some result.feedback)
  , success_criteria_met := some result.success_criteria_met
  , user_input_needed := some result.user_input_needed }

/-- One node execution of the compiled graph, carrying the data supplied by
the external services: the worker's rendered system prompt and the LLM
response (an assistant message), the tool results appended by `ToolNode`
(`ToolMessage`s correlated by call id), or the evaluator's structured
output. -/
inductive NodeStep where
  | worker (sys : String) (respContent : String) (respCalls : List ToolCall)
  | tools (results : List (String × String))
  | evaluator (result : EvaluatorOutput)
deriving DecidableEq

/-- Effect of one node execution on the merged `messages` channel:
the worker first applies its in-place System-message mutation to the
channel value, then its update `{"messages": [response]}` is merged;
`ToolNode` and the evaluator only append. -/
def apply_step (ms : List Message) : NodeStep → List Message
  | NodeStep.worker sys c tc =>
      add_messages (worker_channel_messages sys ms) [Message.assistant c tc]
  | NodeStep.tools rs =>
      add_messages ms (rs.map (fun r => Message.toolResult r.1 r.2))
  | NodeStep.evaluator r => add_messages ms (evaluator_node r).messages

/-- Folding a sequence of node executions over the `messages` channel. -/
def apply_steps (ms : List Message) (steps : List NodeStep) : List Message :=
  steps.foldl apply_step ms

/-- Persisted transcript of a thread after one `Sidekick.run_superstep`
call: the seeded initial state's message (coerced to a Human message) is
merged into the checkpointed transcript by `add_messages`, then
`graph.ainvoke` runs the nodes. -/
def run_superstep_transcript (ms : List Message) (userMsg : String)
    (steps : List NodeStep) : List Message :=
  apply_steps (add_messages ms [Message.human userMsg]) steps

/-- A `{"role": ..., "content": ...}` record of the caller-visible
display history. -/
structure ChatRecord where
  role : String
  content : String
deriving DecidableEq

/-- Result-formatting of `Sidekick.run_superstep` (`src/core/sidekick.py`):
given the final merged state `result` returned by `graph.ainvoke`, it reads
`result["messages"][-2].content` and `result["messages"][-1].content` and
returns `history + [user, reply, feedback]`.  Python negative indexing
raises `IndexError` when fewer than two messages exist; that path (caught
and re-raised as `RuntimeError`) is embedded as `none`. -/
def run_superstep (message : String) (result : State)
    (history : List ChatRecord) : Option (List ChatRecord) :=
  match result.messages.reverse with
  | lastM :: prevM :: _ =>
      some (history ++
        [⟨"user", message⟩, ⟨"assistant", prevM.text⟩, ⟨"assistant", lastM.text⟩])
  | _ => none

/-- Resource-relevant fields of a `Sidekick` instance: the `browser` and
`playwright` handles (`None` embedded as `none`) and the
`_is_initialized` flag (field `setup_done` here). -/
structure SidekickRes where
  browser : Option Nat
  playwright : Option Nat
  setup_done : Bool
deriving DecidableEq

/-- `Sidekick.cleanup` (`src/core/sidekick.py`): when `self.browser and
self.playwright` are both set, `cleanup_browser` is awaited and both
fields are cleared; in every case the `finally` block clears
`_is_initialized`.  The returned Bool records whether `cleanup_browser`
was invoked (i.e. whether browser resources were touched). -/
def cleanup (s : SidekickRes) : SidekickRes × Bool :=
  if s.browser.isSome && s.playwright.isSome then
    ({ browser := none, playwright := none, setup_done := false }, true)
  else
    ({ s with setup_done := false }, false)

/-- Characters removed by Python's `str.strip()` (ASCII whitespace). -/
def py_whitespace (c : Char) : Bool :=
  c = ' ' || c = '\t' || c = '\n' || c = '\r' || c = '\x0b' || c = '\x0c'

/-- Python `message.strip()`: drop whitespace from both ends. -/
def py_strip (s : String) : String :=
  String.mk (((s.data.dropWhile py_whitespace).reverse.dropWhile py_whitespace).reverse)

/-- Outcome of `SidekickUI.process_message`: the returned history, the
returned session object (an opaque id here, since the Python code returns
the `sidekick` argument through unchanged), and whether
`sidekick.run_superstep` was awaited at all. -/
structure ProcessOutcome where
  history : List ChatRecord
  sidekick : Nat
  superstep_ran : Bool
deriving DecidableEq

/-- `SidekickUI.process_message` (`src/ui/gradio_app.py`): returns the
history unchanged when `message.strip()` is empty; otherwise awaits
`run_superstep`, whose outcome (normal result or raised exception message)
is the `run_result` parameter of the embedding.  An exception is caught
and turned into one appended error-flagged assistant record. -/
def process_message (sidekick : Nat) (message : String)
    (run_result : Except String (List ChatRecord))
    (history : List ChatRecord) : ProcessOutcome :=
  if py_strip message = "" then ⟨history, sidekick, false⟩
  else
    match run_result with
    | Except.ok results => ⟨results, sidekick, true⟩
    | Except.error e =>
        ⟨history ++ [⟨"assistant", "Sorry, I encountered an error: " ++ e⟩],
         sidekick, true⟩

/-! ### Helper lemmas about System-message counting -/

@[simp] theorem is_system_system (c : String) : is_system (Message.system c) = true := rfl

@[simp] theorem is_system_human (c : String) : is_system (Message.human c) = false := rfl

@[simp] theorem is_system_assistant (c : String) (tc : List ToolCall) :
    is_system (Message.assistant c tc) = false := rfl

@[simp] theorem is_system_toolResult (i c : String) :
    is_system (Message.toolResult i c) = false := rfl

theorem countSystem_append (ms ns : List Message) :
    countSystem (ms ++ ns) = countSystem ms + countSystem ns := by
  simp [countSystem, List.filter_append]

theorem countSystem_eq_zero_iff (ms : List Message) :
    countSystem ms = 0 ↔ ∀ m ∈ ms, is_system m = false := by
  simp [countSystem, List.length_eq_zero, List.filter_eq_nil_iff]

theorem any_system_eq_false (ms : List Message) (h : countSystem ms = 0) :
    ms.any is_system = false := by
  rw [List.any_eq_false]
  intro m hm
  simp [(countSystem_eq_zero_iff ms).mp h m hm]

theorem countSystem_pos_of_any (ms : List Message) (h : ms.any is_system = true) :
    1 ≤ countSystem ms := by
  rcases List.any_eq_true.mp h with ⟨m, hm, hsys⟩
  refine Nat.pos_of_ne_zero (fun hz => ?_)
  have := (countSystem_eq_zero_iff ms).mp hz m hm
  simp [this] at hsys

theorem countSystem_replace (sys : String) (ms : List Message) :
    countSystem (replace_first_system sys ms) = countSystem ms := by
  induction ms with
  | nil => rfl
  | cons m rest ih =>
      cases hm : is_system m with
      | true =>
          simp [replace_first_system, hm, countSystem, List.filter_cons]
      | false =>
          simp only [countSystem] at ih
          simp [replace_first_system, hm, countSystem, List.filter_cons, ih]

/-! ### C1, C2, C5, C6 -/

/-- C1: for every conversation state, `route_based_on_evaluation` returns
the terminal marker exactly when `success_criteria_met` or
`user_input_needed` holds, returns `"worker"` in every other case, and no
third outcome is possible. -/
theorem route_based_on_evaluation_spec (s : State) :
    (route_based_on_evaluation s = "END" ↔
      (s.success_criteria_met = true ∨ s.user_input_needed = true))
    ∧ (route_based_on_evaluation s = "END" ∨ route_based_on_evaluation s = "worker") := by
  rcases s with ⟨ms, sc, fb, met, need⟩
  cases met <;> cases need <;> simp [route_based_on_evaluation]

/-- C2: on every state with a non-empty message list, `worker_router`
returns `"tools"` exactly when the last message carries one or more tool
calls and `"evaluator"` otherwise, and its result depends on nothing but
whether the last message carries tool calls. -/
theorem worker_router_spec (s : State) (h : s.messages ≠ []) :
    (worker_router s = some "tools" ↔ has_tool_calls (s.messages.getLast h) = true)
    ∧ (worker_router s = some "evaluator" ↔ has_tool_calls (s.messages.getLast h) = false)
    ∧ (worker_router s = some "tools" ∨ worker_router s = some "evaluator")
    ∧ (∀ s₂ : State, ∀ h₂ : s₂.messages ≠ [],
        has_tool_calls (s₂.messages.getLast h₂) = has_tool_calls (s.messages.getLast h) →
        worker_router s₂ = worker_router s) := by
  have e : s.messages.getLast? = some (s.messages.getLast h) :=
    List.getLast?_eq_getLast _ _
  refine ⟨?_, ?_, ?_, ?_⟩
  · cases hl : has_tool_calls (s.messages.getLast h) <;> simp [worker_router, e, hl]
  · cases hl : has_tool_calls (s.messages.getLast h) <;> simp [worker_router, e, hl]
  · cases hl : has_tool_calls (s.messages.getLast h) <;> simp [worker_router, e, hl]
  · intro s₂ h₂ heq
    have e₂ : s₂.messages.getLast? = some (s₂.messages.getLast h₂) :=
      List.getLast?_eq_getLast _ _
    simp [worker_router, e, e₂, heq]

/-- Concrete instantiation of the C2 theorem. -/
theorem worker_router_spec_witness :
    (([Message.human "hi", Message.assistant "ok" []] : List Message) ≠ [])
    ∧ (worker_router
        { messages := [Message.human "hi", Message.assistant "ok" []]
        , success_criteria := "c", feedback_on_work := none
        , success_criteria_met := false, user_input_needed := false } = some "tools"
      ∨ worker_router
        { messages := [Message.human "hi", Message.assistant "ok" []]
        , success_criteria := "c", feedback_on_work := none
        , success_criteria_met := false, user_input_needed := false } = some "evaluator") :=
  ⟨by simp,
   (worker_router_spec
      { messages := [Message.human "hi", Message.assistant "ok" []]
      , success_criteria := "c", feedback_on_work := none
      , success_criteria_met := false, user_input_needed := false }
      (by simp)).2.2.1⟩

/-- C5: `create_initial_state` uses the fixed default success criteria for
an empty criteria string and the caller's string otherwise, and always
starts with absent feedback and both flags false. -/
theorem create_initial_state_spec (msg : String) (sc : String) :
    (create_initial_state msg "").success_criteria = "The answer should be clear and accurate"
    ∧ (sc ≠ "" → (create_initial_state msg sc).success_criteria = sc)
    ∧ (create_initial_state msg sc).feedback_on_work = none
    ∧ (create_initial_state msg sc).success_criteria_met = false
    ∧ (create_initial_state msg sc).user_input_needed = false := by
  refine ⟨rfl, ?_, rfl, rfl, rfl⟩
  intro hsc
  simp [create_initial_state, hsc]

/-- Concrete instantiation of the C5 theorem. -/
theorem create_initial_state_spec_witness :
    (("One sentence" : String) ≠ "")
    ∧ (create_initial_state "m" "One sentence").success_criteria = "One sentence"
    ∧ (create_initial_state "m" "").success_criteria = "The answer should be clear and accurate" :=
  ⟨by decide,
   (create_initial_state_spec "m" "One sentence").2.1 (by decide),
   (create_initial_state_spec "m" "One sentence").1⟩

/-- C6: merging the evaluator node's update appends exactly one assistant
message reading `"Evaluator Feedback on this answer: " ++ feedback` and
overwrites `feedback_on_work`, `success_criteria_met` and
`user_input_needed` with the structured record's values, leaving
everything else unchanged. -/
theorem evaluator_update_spec (st : State) (r : EvaluatorOutput) :
    apply_update st (evaluator_node r) =
      { messages := st.messages ++
          [Message.assistant ("Evaluator Feedback on this answer: " ++ r.feedback) []]
      , success_criteria := st.success_criteria
      , feedback_on_work := some r.feedback
      , success_criteria_met := r.success_criteria_met
      , user_input_needed := r.user_input_needed } := rfl

/-! ### Transcript extension lemmas -/

theorem apply_step_extend (s : NodeStep) (ms : List Message) (h : countSystem ms = 0) :
    ∃ t, apply_step ms s = ms ++ t ∧ countSystem (ms ++ t) = 0 := by
  cases s with
  | worker sys c tc =>
      refine ⟨[Message.assistant c tc], ?_, ?_⟩
      · simp [apply_step, worker_channel_messages, any_system_eq_false ms h, add_messages]
      · rw [countSystem_append, h]
        simp [countSystem]
  | tools rs =>
      refine ⟨rs.map (fun r => Message.toolResult r.1 r.2), ?_, ?_⟩
      · rfl
      rw [countSystem_append, h]
      have : countSystem (rs.map (fun r => Message.toolResult r.1 r.2)) = 0 := by
        rw [countSystem_eq_zero_iff]
        intro m hm
        rcases List.mem_map.mp hm with ⟨r, _, rfl⟩
        simp
      simpa using this
  | evaluator r =>
      refine ⟨(evaluator_node r).messages, rfl, ?_⟩
      rw [countSystem_append, h]
      simp [evaluator_node, countSystem]

theorem apply_steps_extend (steps : List NodeStep) :
    ∀ ms, countSystem ms = 0 →
      ∃ t, apply_steps ms steps = ms ++ t ∧ countSystem (ms ++ t) = 0 := by
  induction steps with
  | nil =>
      intro ms h
      exact ⟨[], by simp [apply_steps], by simpa using h⟩
  | cons s rest ih =>
      intro ms h
      rcases apply_step_extend s ms h with ⟨u, hu, hcu⟩
      rcases ih (ms ++ u) hcu with ⟨t, ht, hct⟩
      refine ⟨u ++ t, ?_, ?_⟩
      · have hstep : apply_steps ms (s :: rest) = apply_steps (apply_step ms s) rest := rfl
        rw [hstep, hu, ht, List.append_assoc]
      · rw [← List.append_assoc]
        exact hct

/-! ### C4 -/

/-- C4 counterexample: run the Worker (with rendered system prompt `"S"`,
LLM response an assistant message `"R"` with no tool calls) on a merged
state whose messages are `[Human "hi"]` — a state with no System message.
The claim says a System message is prepended to the state's messages and
the merged state then holds exactly one System message; in fact the merged
messages are `[Human "hi", Assistant "R"]` and contain zero System
messages, because the prepend affects only the worker's local prompt list
while the returned update is `{"messages": [response]}`. -/
theorem worker_system_message_cex :
    apply_step [Message.human "hi"] (NodeStep.worker "S" "R" [])
      = [Message.human "hi", Message.assistant "R" []]
    ∧ countSystem (apply_step [Message.human "hi"] (NodeStep.worker "S" "R" [])) = 0 :=
  ⟨rfl, rfl⟩

/-- C4 (amended): the list the Worker passes to the LLM (`worker_prompt`)
contains exactly one System message whenever the state holds at most one;
on a state with no System message the fresh System message is prepended to
that local list only, and the merged state's messages — which start with
no System message — remain free of System messages across any sequence of
node executions. -/
theorem worker_prompt_system_message (sys : String) (ms : List Message) :
    (countSystem ms ≤ 1 → countSystem (worker_prompt sys ms) = 1)
    ∧ (countSystem ms = 0 → worker_prompt sys ms = Message.system sys :: ms)
    ∧ (countSystem ms = 0 →
        ∀ steps : List NodeStep, countSystem (apply_steps ms steps) = 0) := by
  refine ⟨?_, ?_, ?_⟩
  · intro h1
    cases ha : ms.any is_system with
    | true =>
        have hge := countSystem_pos_of_any ms ha
        have hwp : worker_prompt sys ms = replace_first_system sys ms := by
          simp [worker_prompt, ha]
        rw [hwp, countSystem_replace]
        omega
    | false =>
        have h0 : ms.filter is_system = [] := by
          rw [List.filter_eq_nil_iff]
          intro m hm
          simpa using List.any_eq_false.mp ha m hm
        simp [worker_prompt, ha, countSystem, List.filter_cons, h0]
  · intro h0
    simp [worker_prompt, any_system_eq_false ms h0]
  · intro h0 steps
    rcases apply_steps_extend steps ms h0 with ⟨t, ht, hct⟩
    rw [ht]
    exact hct

/-- Concrete instantiation of the amended C4 theorem. -/
theorem worker_prompt_system_message_witness :
    (countSystem [Message.human "hi"] ≤ 1
      ∧ countSystem (worker_prompt "S" [Message.human "hi"]) = 1)
    ∧ (countSystem [Message.human "hi"] = 0
      ∧ worker_prompt "S" [Message.human "hi"]
          = Message.system "S" :: [Message.human "hi"])
    ∧ countSystem (apply_steps [Message.human "hi"]
        [NodeStep.worker "S" "R" [], NodeStep.evaluator ⟨"fb", true, false⟩]) = 0 :=
  ⟨⟨by decide, (worker_prompt_system_message "S" [Message.human "hi"]).1 (by decide)⟩,
   ⟨by decide, (worker_prompt_system_message "S" [Message.human "hi"]).2.1 (by decide)⟩,
   (worker_prompt_system_message "S" [Message.human "hi"]).2.2 (by decide)
     [NodeStep.worker "S" "R" [], NodeStep.evaluator ⟨"fb", true, false⟩]⟩

/-! ### C7 -/

/-- C7: running one superstep over a persisted transcript that holds no
System message (the invariant every reachable transcript satisfies, since
the thread starts empty and the third conjunct shows node executions
preserve it) strictly increases the transcript's length and only appends:
every previously persisted message is still present, unchanged and in the
same relative order. -/
theorem run_superstep_transcript_monotone (ms : List Message) (u : String)
    (steps : List NodeStep) (h : countSystem ms = 0) :
    ms.length < (run_superstep_transcript ms u steps).length
    ∧ (∃ t, run_superstep_transcript ms u steps = ms ++ t)
    ∧ countSystem (run_superstep_transcript ms u steps) = 0 := by
  have h1 : countSystem (add_messages ms [Message.human u]) = 0 := by
    show countSystem (ms ++ [Message.human u]) = 0
    rw [countSystem_append, h]
    simp [countSystem]
  rcases apply_steps_extend steps (add_messages ms [Message.human u]) h1 with ⟨t, ht, hct⟩
  have heq : run_superstep_transcript ms u steps = ms ++ ([Message.human u] ++ t) := by
    simp only [run_superstep_transcript]
    rw [ht]
    simp [add_messages]
  refine ⟨?_, ⟨[Message.human u] ++ t, heq⟩, ?_⟩
  · rw [heq, List.length_append]
    have hp : 0 < ([Message.human u] ++ t).length := by simp
    omega
  · simp only [run_superstep_transcript]
    rw [ht]
    exact hct

/-- Concrete instantiation of the C7 theorem. -/
theorem run_superstep_transcript_monotone_witness :
    countSystem [Message.human "hi"] = 0
    ∧ [Message.human "hi"].length <
        (run_superstep_transcript [Message.human "hi"] "u"
          [NodeStep.worker "S" "R" []]).length
    ∧ (∃ t, run_superstep_transcript [Message.human "hi"] "u"
          [NodeStep.worker "S" "R" []] = [Message.human "hi"] ++ t) :=
  ⟨by decide,
   (run_superstep_transcript_monotone [Message.human "hi"] "u"
      [NodeStep.worker "S" "R" []] (by decide)).1,
   (run_superstep_transcript_monotone [Message.human "hi"] "u"
      [NodeStep.worker "S" "R" []] (by decide)).2.1⟩

/-! ### C3 -/

/-- C3: whenever `run_superstep` completes without error (the final merged
state holds at least two messages, so Python's `[-2]`/`[-1]` indexing does
not raise), it returns the input history extended with exactly three
records in order — the user turn carrying the input message, an assistant
record carrying the content of the second-to-last merged message, and an
assistant record carrying the content of the last merged message — with
no input entry removed or changed. -/
theorem run_superstep_spec (msg : String) (result : State) (history : List ChatRecord)
    (h : 2 ≤ result.messages.length) :
    run_superstep msg result history =
      some (history ++
        [⟨"user", msg⟩,
         ⟨"assistant",
           (result.messages.getD (result.messages.length - 2) (Message.human "")).text⟩,
         ⟨"assistant",
           (result.messages.getD (result.messages.length - 1) (Message.human "")).text⟩]) := by
  obtain ⟨a, b, t, hm⟩ : ∃ a b t, result.messages.reverse = a :: b :: t := by
    rcases hrv : result.messages.reverse with _ | ⟨a, tl⟩
    · exfalso
      have hlen := List.length_reverse result.messages
      rw [hrv] at hlen
      simp at hlen
      omega
    · rcases tl with _ | ⟨b, t⟩
      · exfalso
        have hlen := List.length_reverse result.messages
        rw [hrv] at hlen
        simp at hlen
        omega
      · exact ⟨a, b, t, rfl⟩
  have hl : result.messages = t.reverse ++ [b, a] := by
    have h2 := congrArg List.reverse hm
    rw [List.reverse_reverse] at h2
    rw [h2]
    simp
  have hlen2 : (t.reverse ++ [b, a]).length = t.length + 2 := by
    simp
  have hb : result.messages.getD (result.messages.length - 2) (Message.human "") = b := by
    rw [hl, hlen2]
    rw [List.getD_append_right t.reverse [b, a] (Message.human "") (t.length + 2 - 2)
      (by simp)]
    simp
  have ha : result.messages.getD (result.messages.length - 1) (Message.human "") = a := by
    rw [hl, hlen2]
    rw [List.getD_append_right t.reverse [b, a] (Message.human "") (t.length + 2 - 1)
      (by simp)]
    have hidx : t.length + 2 - 1 - t.reverse.length = 1 := by
      rw [List.length_reverse]
      omega
    rw [hidx]
    rfl
  rw [hb, ha]
  simp only [run_superstep, hm]

/-- Concrete instantiation of the C3 theorem. -/
theorem run_superstep_spec_witness :
    2 ≤ (State.mk [Message.human "q", Message.assistant "a" []] "c" none false false).messages.length
    ∧ run_superstep "q"
        (State.mk [Message.human "q", Message.assistant "a" []] "c" none false false) [] =
      some ([] ++
        [⟨"user", "q"⟩,
         ⟨"assistant",
           ((State.mk [Message.human "q", Message.assistant "a" []] "c" none false false).messages.getD
             ((State.mk [Message.human "q", Message.assistant "a" []] "c" none false false).messages.length - 2)
             (Message.human "")).text⟩,
         ⟨"assistant",
           ((State.mk [Message.human "q", Message.assistant "a" []] "c" none false false).messages.getD
             ((State.mk [Message.human "q", Message.assistant "a" []] "c" none false false).messages.length - 1)
             (Message.human "")).text⟩]) :=
  ⟨by decide,
   run_superstep_spec "q"
     (State.mk [Message.human "q", Message.assistant "a" []] "c" none false false) []
     (by decide)⟩

/-! ### C8 -/

/-- C8 counterexample: on an instance whose `browser` field is set while
`playwright` is `None`, `cleanup` skips the release branch (the guard is
`self.browser and self.playwright`), so after the call the browser field
is still set — contradicting the claim that after any call both resource
fields are absent. -/
theorem cleanup_cex :
    (cleanup { browser := some 1, playwright := none, setup_done := true }).1.browser = some 1
    ∧ ¬ (cleanup { browser := some 1, playwright := none, setup_done := true }).1.browser
        = none :=
  ⟨rfl, by decide⟩

/-- C8 (amended): `cleanup` is total and idempotent on all instance
states, a call on a never-initialized instance touches no browser
resources and only (re)clears the flag, the initialized flag is false
after every call, and on every instance whose `browser` and `playwright`
fields are both present or both absent — the only configurations `setup`
and `cleanup` themselves produce — both resource fields are absent after
the call. -/
theorem cleanup_spec (s : SidekickRes) :
    (cleanup (cleanup s).1).1 = (cleanup s).1
    ∧ (s.browser = none → s.playwright = none →
        (cleanup s).2 = false ∧ (cleanup s).1 = { s with setup_done := false })
    ∧ (s.browser.isSome = s.playwright.isSome →
        (cleanup s).1.browser = none ∧ (cleanup s).1.playwright = none)
    ∧ (cleanup s).1.setup_done = false := by
  rcases s with ⟨b, p, i⟩
  cases b <;> cases p <;> simp [cleanup]

/-- Concrete instantiation of the amended C8 theorem. -/
theorem cleanup_spec_witness :
    ((cleanup { browser := none, playwright := none, setup_done := false }).2 = false
      ∧ (cleanup { browser := none, playwright := none, setup_done := false }).1
          = { browser := none, playwright := none, setup_done := false })
    ∧ ((cleanup { browser := some 1, playwright := some 2, setup_done := true }).1.browser = none
      ∧ (cleanup { browser := some 1, playwright := some 2, setup_done := true }).1.playwright
          = none) :=
  ⟨(cleanup_spec ⟨none, none, false⟩).2.1 rfl rfl,
   (cleanup_spec ⟨some 1, some 2, true⟩).2.2.1 rfl⟩

/-! ### C9 and C10 -/

/-- C9: when the underlying superstep raises, `process_message` does not
propagate the failure: it returns normally with the input history
unchanged except for exactly one appended assistant record whose content
flags the error, and hands the same session object back. -/
theorem process_message_error_spec (sk : Nat) (msg : String) (e : String)
    (history : List ChatRecord) (h : ¬ py_strip msg = "") :
    process_message sk msg (Except.error e) history =
      { history := history ++ [⟨"assistant", "Sorry, I encountered an error: " ++ e⟩]
      , sidekick := sk
      , superstep_ran := true } := by
  simp [process_message, h]

/-- Concrete instantiation of the C9 theorem. -/
theorem process_message_error_spec_witness :
    (¬ py_strip "hello" = "")
    ∧ process_message 7 "hello" (Except.error "boom") [] =
        { history := [⟨"assistant", "Sorry, I encountered an error: " ++ "boom"⟩]
        , sidekick := 7
        , superstep_ran := true } :=
  ⟨by decide, process_message_error_spec 7 "hello" "boom" [] (by decide)⟩

/-- C10: a message that is empty or whitespace-only makes
`process_message` return the history unchanged and the same session
object, without running any superstep. -/
theorem process_message_blank_spec (sk : Nat) (msg : String)
    (r : Except String (List ChatRecord)) (history : List ChatRecord)
    (h : py_strip msg = "") :
    process_message sk msg r history =
      { history := history, sidekick := sk, superstep_ran := false } := by
  simp [process_message, h]

/-- Concrete instantiation of the C10 theorem. -/
theorem process_message_blank_spec_witness :
    py_strip " \t " = ""
    ∧ process_message 3 " \t " (Except.ok [⟨"user", "x"⟩]) [⟨"user", "y"⟩] =
        { history := [⟨"user", "y"⟩], sidekick := 3, superstep_ran := false } :=
  ⟨by decide,
   process_message_blank_spec 3 " \t " (Except.ok [⟨"user", "x"⟩]) [⟨"user", "y"⟩]
     (by decide)⟩
